import Mathlib

/-!
Shallow embedding of the `bookstore` book-research service
(`src/server/app`), covering the pieces the verified claims are about:

* the research data model (`app/ai/research_service.py`):
  `ResearchSource`, `BookResearchInfo`, `BookResearchOutput`, and the
  two-stage research call `BookResearchService.research_book` with its
  source-deduplication helper `_get_unique_sources`;
* the Mongo document models (`app/mongo_models/book_research.py` and
  `research_task.py`): `BookResearch` with `add_search_index`,
  `insert_book` and `vector_similarity`, plus `ResearchTask`;
* the research endpoints (`app/api/endpoints/research.py`):
  `research_book_async`, `background_task_research`,
  `research_and_insert`;
* the MCP search tool (`app/api/endpoints/books.py` /
  `app/api/mcp_tools/search_tools.py`): `search_books`.

External collaborators (the Gemini LLM, the embedding model, the MongoDB
server) are modelled as oracles: total functions or `Except`-valued
results supplied as parameters.  Python floats are modelled as `ℚ`.
Python exceptions are modelled with `Except PyErr`.
-/

namespace Bookstore

/-- Python-level exceptions that the modelled code can raise or observe. -/
inductive PyErr where
  /-- `TypeError` from calling a function without required keyword
  arguments; carries the names of the missing parameters. -/
  | typeErrorMissingArgs (names : List String)
  /-- `AttributeError` from reading a nonexistent attribute. -/
  | attributeError (attr : String)
  /-- `IndexError` from subscripting an empty list. -/
  | indexError
  /-- pydantic validation failure. -/
  | validationError
  /-- any exception escaping an external provider call. -/
  | providerError (msg : String)
  deriving DecidableEq, Repr

/-- `TaskStatusEnum` from `app/mongo_models/research_task.py`. -/
inductive TaskStatusEnum where
  | WORKING
  | SUCCESS
  | FAILURE
  deriving DecidableEq, Repr

/-- `ResearchSource` (app/ai/research_service.py): a named URL citation. -/
structure ResearchSource where
  name : String
  url : String
  deriving DecidableEq, Repr

/-- `BookResearchInfo` (app/ai/research_service.py): the structured,
schema-validated outcome of researching one book. -/
structure BookResearchInfo where
  title : String
  authors : List String
  publication_year : Int
  isbn : String
  series_title : String
  series_entry_number : Int
  series_description : String
  other_series_entries : List String
  awards : List String
  bestseller_lists : List String
  critical_quotes : List String
  positive_quotes : List String
  critical_consensus : String
  user_ratings : List String
  user_quotes : List String
  user_reception : String
  page_count : Int
  word_count : Int
  genres : List String
  description : String
  emotional_tone : String
  spicy_rating : String
  content_warnings : String
  target_audience : String
  reader_demographics : String
  setting_time_place : String
  general_style : String
  pacing : String
  reading_difficulty : String
  narrative_pov : String
  similar_works : List String
  frequently_compared_to : List String
  author_other_series : List String
  author_other_works : List String
  author_background : String
  deriving DecidableEq, Repr

/-- `BookResearchInfo.as_string`: the field-labelled text rendering of the
record (`self.model_dump_json(indent=2)` in the source).  The exact JSON
punctuation is irrelevant to every claim — the rendering is only ever fed
opaquely to the embedding oracle — so it is modelled as a labelled
concatenation of all fields in declaration order. -/
def BookResearchInfo.as_string (i : BookResearchInfo) : String :=
  let strs : List String → String := String.intercalate ", "
  String.intercalate "\n" [
    "title: " ++ i.title,
    "authors: " ++ strs i.authors,
    "publication_year: " ++ toString i.publication_year,
    "isbn: " ++ i.isbn,
    "series_title: " ++ i.series_title,
    "series_entry_number: " ++ toString i.series_entry_number,
    "series_description: " ++ i.series_description,
    "other_series_entries: " ++ strs i.other_series_entries,
    "awards: " ++ strs i.awards,
    "bestseller_lists: " ++ strs i.bestseller_lists,
    "critical_quotes: " ++ strs i.critical_quotes,
    "positive_quotes: " ++ strs i.positive_quotes,
    "critical_consensus: " ++ i.critical_consensus,
    "user_ratings: " ++ strs i.user_ratings,
    "user_quotes: " ++ strs i.user_quotes,
    "user_reception: " ++ i.user_reception,
    "page_count: " ++ toString i.page_count,
    "word_count: " ++ toString i.word_count,
    "genres: " ++ strs i.genres,
    "description: " ++ i.description,
    "emotional_tone: " ++ i.emotional_tone,
    "spicy_rating: " ++ i.spicy_rating,
    "content_warnings: " ++ i.content_warnings,
    "target_audience: " ++ i.target_audience,
    "reader_demographics: " ++ i.reader_demographics,
    "setting_time_place: " ++ i.setting_time_place,
    "general_style: " ++ i.general_style,
    "pacing: " ++ i.pacing,
    "reading_difficulty: " ++ i.reading_difficulty,
    "narrative_pov: " ++ i.narrative_pov,
    "similar_works: " ++ strs i.similar_works,
    "frequently_compared_to: " ++ strs i.frequently_compared_to,
    "author_other_series: " ++ strs i.author_other_series,
    "author_other_works: " ++ strs i.author_other_works,
    "author_background: " ++ i.author_background]

/-- `BookResearchOutput` (app/ai/research_service.py): a `BookResearchInfo`
paired with its citation sources. -/
structure BookResearchOutput where
  info : BookResearchInfo
  sources : List ResearchSource
  deriving DecidableEq, Repr

/-! ### The Gemini response shapes consumed by the research service

Only the fields the source code reads are modelled
(`response.text`, `response.candidates[0].grounding_metadata`,
`metadata.grounding_chunks`, `chunk.web.uri`, `chunk.web.title`,
`response.parsed`). -/

/-- `chunk.web` of a grounding chunk: a cited web page. -/
structure GroundingChunkWeb where
  title : String
  uri : String
  deriving DecidableEq, Repr

/-- a grounding chunk; `web` is `None` for non-web chunks. -/
structure GroundingChunk where
  web : Option GroundingChunkWeb
  deriving DecidableEq, Repr

/-- `grounding_metadata` of a response candidate. -/
structure GroundingMetadata where
  grounding_chunks : Option (List GroundingChunk)
  deriving DecidableEq, Repr

/-- one response candidate; only `grounding_metadata` is read. -/
structure Candidate where
  grounding_metadata : Option GroundingMetadata
  deriving DecidableEq, Repr

/-- the response of the stage-1 (web search) `generate_content` call. -/
structure GenerateContentResponse where
  text : String
  candidates : List Candidate
  deriving DecidableEq, Repr

/-- the response of the stage-2 (schema-constrained) `generate_content`
call; `parsed` is `None` when the payload could not be parsed into
`BookResearchInfo`. -/
structure StructuredResponse where
  parsed : Option BookResearchInfo
  deriving DecidableEq, Repr

/-! ### `BookResearchService._get_unique_sources` -/

/-- the loop body of `_get_unique_sources`: `sources` is the insertion-
ordered dict of url ↦ title, modelled as an association list; a chunk with
a web citation is appended only if its URL is not yet a key
(`if url not in sources: sources[url] = chunk.web.title`). -/
def sourcesStep (acc : List (String × String)) (chunk : GroundingChunk) :
    List (String × String) :=
  match chunk.web with
  | none => acc
  | some w => if acc.any (fun kv => kv.1 == w.uri) then acc else acc ++ [(w.uri, w.title)]

/-- `BookResearchService._get_unique_sources`
(app/ai/research_service.py, lines 189-203): reads
`response.candidates[0].grounding_metadata` (an `IndexError` when there
are no candidates), returns `[]` when the metadata is absent, and
otherwise folds the grounding chunks into a url-keyed dict, first-seen
title winning, returning `ResearchSource(name=title, url=url)` pairs in
insertion order. -/
def get_unique_sources (response : GenerateContentResponse) :
    Except PyErr (List ResearchSource) :=
  match response.candidates with
  | [] => .error .indexError
  | c :: _ =>
    match c.grounding_metadata with
    | none => .ok []
    | some metadata =>
      let chunks := match metadata.grounding_chunks with
        | none => []
        | some l => l
      let sources := chunks.foldl sourcesStep []
      .ok (sources.map (fun kv => { name := kv.2, url := kv.1 }))

/-! ### `BookResearchService.research_book` -/

/-- the external AI collaborators of the pipeline, as oracles:
`searchCall` stands for the stage-1 `generate_content` call with web
search enabled (keyed by the title and other-info interpolated into
`search_prompt`), `structureCall` for the stage-2 schema-constrained
`generate_content` call (keyed by the stage-1 free text interpolated
into `structure_prompt`), `embedCall` for
`EmbeddingService.generate_embedding`, and `insertRaises` injects a
database failure for a given document insert. -/
structure AIOracle where
  searchCall : String → Option String → Except PyErr GenerateContentResponse
  structureCall : String → Except PyErr StructuredResponse
  embedCall : String → Except PyErr (List ℚ)
  insertRaises : String → Bool

/-- `BookResearchService._search_book_info`: invoke the search-stage call
and return the free text together with the deduplicated sources. -/
def search_book_info (o : AIOracle) (title : String) (other_info : Option String) :
    Except PyErr (String × List ResearchSource) := do
  let response ← o.searchCall title other_info
  let sources ← get_unique_sources response
  return (response.text, sources)

/-- `BookResearchService._structure_book_info`: invoke the structuring
call and return `response.parsed`. -/
def structure_book_info (o : AIOracle) (research_output : String) :
    Except PyErr (Option BookResearchInfo) := do
  let response ← o.structureCall research_output
  return response.parsed

/-- `BookResearchService.research_book` (app/ai/research_service.py,
lines 157-164): stage 1 search, stage 2 structuring, then compose the
`BookResearchOutput`.  A `None` from `response.parsed` fails pydantic
validation of `BookResearchOutput.info` and is modelled as
`validationError`. -/
def research_book (o : AIOracle) (title : String) (other_info : Option String) :
    Except PyErr BookResearchOutput := do
  let (research_output, sources) ← search_book_info o title other_info
  let structured_info ← structure_book_info o research_output
  match structured_info with
  | some info => return { info := info, sources := sources }
  | none => throw .validationError

/-! ### The `book_research` Mongo collection
(`app/mongo_models/book_research.py`) -/

/-- `BookResearch` document (app/mongo_models/book_research.py, lines
32-39): one persisted research result.  The server-assigned Mongo `_id`
is not read by any modelled operation and is omitted. -/
structure BookResearch where
  provided_title : String
  provided_other_info : Option String
  research_output : BookResearchOutput
  embedding : List ℚ
  deriving DecidableEq, Repr

/-- one vector field of a search-index definition, as built by
`add_search_index`. -/
structure SearchIndexField where
  type : String
  path : String
  numDimensions : Nat
  similarity : String
  quantization : String
  deriving DecidableEq, Repr

/-- a named search index on the collection. -/
structure SearchIndexSpec where
  name : String
  type : String
  fields : List SearchIndexField
  deriving DecidableEq, Repr

/-- the index document passed to `create_search_index` by
`add_search_index` (lines 57-71): name `vector_index`, a single vector
field over `embedding` with 768 dimensions and cosine similarity. -/
def vectorIndexSpec : SearchIndexSpec :=
  { name := "vector_index"
    type := "vectorSearch"
    fields := [{ type := "vector", path := "embedding", numDimensions := 768,
                 similarity := "cosine", quantization := "scalar" }] }

/-- the persisted state of the `book_research` collection: whether the
collection exists, its search indexes, and its documents in insertion
order. -/
structure ResearchStoreState where
  collectionExists : Bool
  searchIndexes : List SearchIndexSpec
  entries : List BookResearch
  deriving DecidableEq, Repr

/-- `pymongo.errors.CollectionInvalid`, the only error
`db.create_collection` raises in this flow (collection already exists). -/
inductive CollectionInvalidErr where
  | collectionInvalid
  deriving DecidableEq, Repr

/-- errors of the Atlas search-index commands: `create_search_index`
with a name that already exists on the collection is rejected with a
duplicate-index error. -/
inductive MongoErr where
  | duplicateIndexName
  deriving DecidableEq, Repr

/-- `db.create_collection(collection_name)`: raises `CollectionInvalid`
when the collection already exists, else creates it. -/
def createCollection (st : ResearchStoreState) :
    Except CollectionInvalidErr ResearchStoreState :=
  if st.collectionExists then .error .collectionInvalid
  else .ok { st with collectionExists := true }

/-- `collection.create_search_index(spec)`: rejected with a
duplicate-index error when an index of that name already exists on the
collection (the server checks the full index set, not a truncated
listing), else the index is added. -/
def createSearchIndex (spec : SearchIndexSpec) (st : ResearchStoreState) :
    Except MongoErr ResearchStoreState :=
  if st.searchIndexes.any (fun i => i.name == spec.name) then
    .error .duplicateIndexName
  else .ok { st with searchIndexes := st.searchIndexes ++ [spec] }

/-- `BookResearch.add_search_index` (app/mongo_models/book_research.py,
lines 41-71): create the collection, swallowing `CollectionInvalid` if
it already exists; list the existing search indexes — but only the first
10 of them, because the code reads `to_list(length=10)` — and call
`create_search_index` for `vector_index` when no index of that name is
among those first 10.  The `create_search_index` error is not caught and
propagates. -/
def add_search_index (st : ResearchStoreState) :
    Except MongoErr ResearchStoreState :=
  let st1 := match createCollection st with
    | .error .collectionInvalid => st  -- `except CollectionInvalid: pass`
    | .ok s => s
  let existing := st1.searchIndexes.take 10  -- `to_list(length=10)`
  if existing.any (fun i => i.name == "vector_index") then .ok st1
  else createSearchIndex vectorIndexSpec st1

/-- the keyword arguments of a Python call to `BookResearch.insert_book`:
each field is `none` when the caller does not pass that keyword.  Python
raises `TypeError` at the call when a parameter without a default is
missing; `insert_book` declares all four parameters without defaults. -/
structure InsertBookKwargs where
  provided_title : Option String
  provided_other_info : Option (Option String)
  research_output : Option BookResearchOutput
  embedding : Option (List ℚ)

/-- the parameter names of `insert_book` the caller failed to supply, in
signature order. -/
def InsertBookKwargs.missing (kw : InsertBookKwargs) : List String :=
  (if kw.provided_title.isSome then [] else ["provided_title"]) ++
  (if kw.provided_other_info.isSome then [] else ["provided_other_info"]) ++
  (if kw.research_output.isSome then [] else ["research_output"]) ++
  (if kw.embedding.isSome then [] else ["embedding"])

/-- `BookResearch.insert_book` (app/mongo_models/book_research.py, lines
73-82) as invoked through Python call binding: with all four keyword
arguments bound, it constructs the document and inserts it — there is no
check of the embedding's length anywhere in its body — and returns the
inserted document.  A missing required argument is a `TypeError` raised
at the call site, before any body code runs.  `insertRaises` injects a
database failure of the `insert` write itself (the write is a
single-document atomic insert: on failure nothing is persisted). -/
def insert_book (insertRaises : String → Bool) (kw : InsertBookKwargs)
    (st : ResearchStoreState) :
    Except PyErr (ResearchStoreState × BookResearch) :=
  match kw.provided_title, kw.provided_other_info, kw.research_output, kw.embedding with
  | some t, some oi, some ro, some emb =>
    let research : BookResearch :=
      { provided_title := t, provided_other_info := oi,
        research_output := ro, embedding := emb }
    if insertRaises research.provided_title then
      .error (.providerError "insert failed")
    else
      .ok ({ st with entries := st.entries ++ [research] }, research)
  | _, _, _, _ => .error (.typeErrorMissingArgs kw.missing)

/-! ### `BookResearch.vector_similarity` -/

/-- the `$vectorSearch` aggregation stage built by `vector_similarity`
(app/mongo_models/book_research.py, lines 87-102). -/
structure VectorSearchStage where
  index : String
  path : String
  queryVector : List ℚ
  numCandidates : Nat
  limit : Nat
  deriving DecidableEq, Repr

/-- the pipeline head constructed by `vector_similarity`: index
`vector_index` over path `embedding`, `numCandidates = limit * 10`. -/
def mkVectorSearchStage (query_vector : List ℚ) (limit : Nat) : VectorSearchStage :=
  { index := "vector_index", path := "embedding", queryVector := query_vector,
    numCandidates := limit * 10, limit := limit }

/-- `BookResearchWithSimilarity` (app/mongo_models/book_research.py,
lines 112-113): a `BookResearch` document extended with the
`vectorSearchScore` projected as `similarity`. -/
structure BookResearchWithSimilarity where
  base : BookResearch
  similarity : ℚ
  deriving DecidableEq, Repr

/-- Modelled from the spec: the MongoDB Atlas `$vectorSearch` operator —
external to this repository — which per the spec performs
"approximate nearest-neighbor by cosine similarity, descending score, at
most `limit` results" over a candidate set of `numCandidates`, attaching
the `vectorSearchScore` meta to each matching document.  The numeric
cosine computation is floating point inside the server and is abstracted
as the parameter `sim`; the operator ranks the collection by descending
`sim queryVector entry.embedding`, keeps `numCandidates` candidates and
emits the first `limit` of them with their scores. -/
def vectorSearchStageExec (sim : List ℚ → List ℚ → ℚ)
    (stage : VectorSearchStage) (entries : List BookResearch) :
    List (BookResearch × ℚ) :=
  let ranked := entries.insertionSort
    (fun a b => sim stage.queryVector b.embedding ≤ sim stage.queryVector a.embedding)
  ((ranked.take stage.numCandidates).take stage.limit).map
    (fun e => (e, sim stage.queryVector e.embedding))

/-- a document as it leaves the aggregation pipeline, restricted to the
fields `BookResearchWithSimilarity` would need: each possibly absent
(the server-assigned `_id`, which always survives projection, is not
read by any modelled operation and is omitted). -/
structure MongoDoc where
  provided_title : Option String
  provided_other_info : Option (Option String)
  research_output : Option BookResearchOutput
  embedding : Option (List ℚ)
  similarity : Option ℚ
  deriving DecidableEq, Repr

/-- the `$project` stage of `vector_similarity` (book_research.py,
lines 103-107): `similarity` is a computed field, so the projection is
an inclusion projection — the output document keeps only `_id` and the
computed `similarity`, suppressing `provided_title`,
`provided_other_info`, `research_output` and `embedding`. -/
def projectSimilarityStage (d : BookResearch × ℚ) : MongoDoc :=
  { provided_title := none, provided_other_info := none,
    research_output := none, embedding := none, similarity := some d.2 }

/-- the `projection_model=BookResearchWithSimilarity` parse applied by
beanie to each document of the aggregation result: pydantic validation
requires every required field to be present, raising a validation error
otherwise. -/
def parseBookResearchWithSimilarity (d : MongoDoc) :
    Except PyErr BookResearchWithSimilarity :=
  match d.provided_title, d.provided_other_info, d.research_output,
      d.embedding, d.similarity with
  | some t, some oi, some ro, some emb, some s =>
    .ok { base := { provided_title := t, provided_other_info := oi,
                    research_output := ro, embedding := emb },
          similarity := s }
  | _, _, _, _, _ => .error .validationError

/-- `BookResearch.vector_similarity` (app/mongo_models/book_research.py,
lines 84-110): build the `$vectorSearch` stage with
`numCandidates = limit * 10`, let the store run it and the `$project`
stage, then parse each resulting document into
`BookResearchWithSimilarity`.  Because the inclusion `$project` strips
the four base fields, the parse fails on every document, so the call
raises a validation error whenever the search matches anything. -/
def vector_similarity (sim : List ℚ → List ℚ → ℚ) (st : ResearchStoreState)
    (query_vector : List ℚ) (limit : Nat := 5) :
    Except PyErr (List BookResearchWithSimilarity) :=
  let docs := (vectorSearchStageExec sim (mkVectorSearchStage query_vector limit)
    st.entries).map projectSimilarityStage
  docs.mapM parseBookResearchWithSimilarity

/-! ### The `research_tasks` Mongo collection
(`app/mongo_models/research_task.py`) and the server world state -/

/-- `ResearchTask` document (app/mongo_models/research_task.py, lines
29-53).  Mongo ObjectIds are modelled as naturals drawn from a
server-side counter; `started_at` (`default_factory=datetime.now`) is a
clock reading. -/
structure ResearchTask where
  id : Nat
  title : String
  other_info : Option String
  status : TaskStatusEnum
  started_at : Nat
  deriving DecidableEq, Repr

/-- the shared persisted state the endpoints operate on: the task
collection, the research collection, the ObjectId source and the clock. -/
structure World where
  nextId : Nat
  now : Nat
  tasks : List ResearchTask
  store : ResearchStoreState
  deriving DecidableEq, Repr

/-- `ResearchTask.insert_research_task` (research_task.py, lines 40-53)
as invoked by `research_book_async`, which omits the `status` argument
so the `TaskStatusEnum.WORKING` default applies: construct the task and
insert it, the store assigning a fresh id and the creation timestamp. -/
def insert_research_task (title : String) (other_info : Option String)
    (w : World) : ResearchTask × World :=
  let task : ResearchTask :=
    { id := w.nextId, title := title, other_info := other_info,
      status := TaskStatusEnum.WORKING, started_at := w.now }
  (task, { w with nextId := w.nextId + 1, tasks := w.tasks ++ [task] })

/-- `task.save()`: write the in-memory document back to the collection,
replacing the stored document with the same id.  beanie's `save()`
actually upserts (re-inserting a deleted document); in the batch flow
modelled here no deletion interleaves and every saved id is present, so
replace-in-place is exact for it — the upsert case matters only for the
task-lifecycle relation, where `TaskStep.resurrect` captures it. -/
def saveTask (t : ResearchTask) (w : World) : World :=
  { w with tasks := w.tasks.map (fun u => if u.id = t.id then t else u) }

/-- `ResearchTask.get(task_id)`: lookup by id. -/
def findTask (w : World) (id : Nat) : Option ResearchTask :=
  w.tasks.find? (fun u => u.id = id)

/-! ### The research endpoints (`app/api/endpoints/research.py`) -/

/-- `SingleBookResearchRequest` (research.py, lines 33-35). -/
structure SingleBookResearchRequest where
  title : String
  other_info : Option String
  deriving DecidableEq, Repr

/-- a background unit of work queued by `background_tasks.add_task`: the
request together with the already-persisted task document that the
background function will finalize. -/
structure PendingJob where
  request : SingleBookResearchRequest
  task : ResearchTask
  deriving DecidableEq, Repr

/-- `research_book_async` (app/api/endpoints/research.py, lines 40-59):
for each request of the batch, persist a `ResearchTask` (status
`WORKING`) and queue one background job for it; return the task list to
the caller.  FastAPI runs the queued `background_tasks` only after the
response is returned, so the returned list and the pending jobs are
produced without consulting any AI oracle. -/
def research_book_async (books : List SingleBookResearchRequest) (w : World) :
    List ResearchTask × List PendingJob × World :=
  match books with
  | [] => ([], [], w)
  | brq :: rest =>
    let (task, w1) := insert_research_task brq.title brq.other_info w
    let (tasks, jobs, w2) := research_book_async rest w1
    (task :: tasks, { request := brq, task := task } :: jobs, w2)

/-- `background_task_research` (app/api/endpoints/research.py, lines
61-84): run the two-stage research, embed the serialized record, insert
the `BookResearch` document — passing all four keyword arguments — and
save the task as `SUCCESS`; on any exception in those steps, save the
task as `FAILURE` instead, leaving the research store untouched. -/
def background_task_research (o : AIOracle)
    (research_request : SingleBookResearchRequest) (task : ResearchTask)
    (w : World) : World :=
  match research_book o research_request.title research_request.other_info with
  | .error _ => saveTask { task with status := TaskStatusEnum.FAILURE } w
  | .ok research_output =>
    match o.embedCall research_output.info.as_string with
    | .error _ => saveTask { task with status := TaskStatusEnum.FAILURE } w
    | .ok embedding =>
      match insert_book o.insertRaises
          { provided_title := some research_request.title,
            provided_other_info := some research_request.other_info,
            research_output := some research_output,
            embedding := some embedding } w.store with
      | .error _ => saveTask { task with status := TaskStatusEnum.FAILURE } w
      | .ok (store2, _) =>
        saveTask { task with status := TaskStatusEnum.SUCCESS }
          { w with store := store2 }

/-- FastAPI draining the background-task queue after the response: the
jobs run one after the other over the shared world. -/
def runBackground (o : AIOracle) (jobs : List PendingJob) (w : World) : World :=
  jobs.foldl (fun w j => background_task_research o j.request j.task w) w

/-- the full asynchronous batch flow: the synchronous part returns the
task list, then the queued jobs run. -/
def submitBatchAndRun (o : AIOracle) (books : List SingleBookResearchRequest)
    (w : World) : World :=
  let (_, jobs, w1) := research_book_async books w
  runBackground o jobs w1

/-- `research_and_insert` (app/api/endpoints/research.py, lines 87-101):
the synchronous endpoint researches the book and then calls
`BookResearch.insert_book` passing only `provided_title`,
`provided_other_info` and `research_output` — the required `embedding`
keyword argument is not passed.  Exceptions propagate to the caller. -/
def research_and_insert (o : AIOracle) (request : SingleBookResearchRequest)
    (w : World) : Except PyErr (World × BookResearch) := do
  let research_output ← research_book o request.title request.other_info
  let (store2, new_book) ← insert_book o.insertRaises
    { provided_title := some request.title,
      provided_other_info := some request.other_info,
      research_output := some research_output,
      embedding := none } w.store
  return ({ w with store := store2 }, new_book)

/-! ### The MCP `search_books` tool
(`app/api/endpoints/books.py`, lines 112-127, and
`app/api/mcp_tools/search_tools.py`, lines 44-59) -/

/-- the attribute names defined on `BookResearchWithSimilarity`
instances: the `id` of `beanie.Document`, the four declared fields of
`BookResearch`, and the `similarity` field added by the subclass. -/
def bookResearchWithSimilarityAttrs : List String :=
  ["id", "provided_title", "provided_other_info", "research_output",
   "embedding", "similarity"]

/-- Python attribute access on a pydantic model: reading a name that is
not among the model's fields raises `AttributeError`. -/
def pyGetattr (attrs : List String) (name : String) : Except PyErr Unit :=
  if name ∈ attrs then .ok () else .error (.attributeError name)

/-- the output-formatting loop of `search_books`, starting from
`out = ''`: each iteration evaluates the f-string
`f'# Book Result: (i)\n\n(book.book.as_string())\n\n\n\n'`, whose
evaluation begins with the attribute access `book.book` on a
`BookResearchWithSimilarity` instance.  Since that attribute does not
exist, the value the f-string would interpolate is abstracted as the
parameter `render`. -/
def formatLoop (render : BookResearchWithSimilarity → String) (i : Nat)
    (out : String) : List BookResearchWithSimilarity → Except PyErr String
  | [] => .ok out
  | book :: rest =>
    match pyGetattr bookResearchWithSimilarityAttrs "book" with
    | .error e => .error e
    | .ok _ =>
      formatLoop render (i + 1)
        (out ++ "# Book Result: " ++ toString i ++ "\n\n" ++ render book ++ "\n\n\n\n")
        rest

/-- the MCP `search_books` tool: embed the query, run
`BookResearch.vector_similarity` with `limit=5`, then format the
results with the `book.book.as_string()` loop. -/
def search_books (o : AIOracle) (sim : List ℚ → List ℚ → ℚ)
    (render : BookResearchWithSimilarity → String)
    (st : ResearchStoreState) (search_query : String) : Except PyErr String := do
  let query_vector ← o.embedCall search_query
  let books ← vector_similarity sim st query_vector 5
  formatLoop render 0 "" books

/-! ### The task-lifecycle protocol (claim C7)

The repository operations that touch one `ResearchTask` document are:
creation by `research_book_async` (always status `WORKING`, one
background job queued exactly once, at creation); the single terminal
save by that job in `background_task_research` (`SUCCESS` on the happy
path, `FAILURE` in the `except` arm); and deletion by the
`/tasks/delete` and `/tasks/clear` endpoints.  beanie's `task.save()`
upserts: if the document was deleted while its job was still in flight,
the job's terminal save re-inserts the record — directly in a terminal
status.  The per-record protocol state therefore tracks the persisted
status together with whether the record's one background job has
already performed its terminal save, including through deletion. -/

/-- lifecycle state of one task id. -/
inductive TaskLifeState where
  /-- no document with this id was ever created. -/
  | absent
  /-- a document exists with the given status; `jobRan` records whether
  its background job has already done its terminal save. -/
  | active (status : TaskStatusEnum) (jobRan : Bool)
  /-- the document was deleted (ObjectIds are never reused); `jobRan`
  records whether its background job had already saved — when it had
  not, the job's later upserting save can still re-insert the record. -/
  | deleted (jobRan : Bool)
  deriving DecidableEq, Repr

/-- one repository operation on a single task record, as derived from
`research_book_async` (create), `background_task_research` (the unique
terminal, upserting save of the record's one job), and the delete
endpoints. -/
inductive TaskStep : TaskLifeState → TaskLifeState → Prop where
  /-- `insert_research_task` as invoked by `research_book_async`: the
  `status` argument is omitted, so the document is created `WORKING`;
  its background job has not run. -/
  | create : TaskStep .absent (.active TaskStatusEnum.WORKING false)
  /-- the terminal save of `background_task_research`: the record's one
  job finishes, saving `SUCCESS` on success and `FAILURE` on exception. -/
  | finish (ok : Bool) :
      TaskStep (.active TaskStatusEnum.WORKING false)
        (.active (if ok then TaskStatusEnum.SUCCESS else TaskStatusEnum.FAILURE) true)
  /-- `research_task_delete` / `research_tasks_clear`: delete the
  document; the record's job, if still in flight, stays in flight. -/
  | delete (s : TaskStatusEnum) (b : Bool) : TaskStep (.active s b) (.deleted b)
  /-- the terminal save of `background_task_research` landing after the
  document was deleted: beanie's `save()` upserts, re-inserting the
  record with the job's terminal status. -/
  | resurrect (ok : Bool) :
      TaskStep (.deleted false)
        (.active (if ok then TaskStatusEnum.SUCCESS else TaskStatusEnum.FAILURE) true)

/-! ### Derived characterizations used by the theorems -/

/-- the pair-level loop body underlying `sourcesStep`, acting on the web
payloads only (chunks without a web citation leave the dict unchanged). -/
def sourcesPairStep (acc : List (String × String)) (w : GroundingChunkWeb) :
    List (String × String) :=
  if acc.any (fun kv => kv.1 == w.uri) then acc else acc ++ [(w.uri, w.title)]

/-- the document `background_task_research` persists for one request:
`none` when the research, embedding or insert step of that task raises. -/
def jobDoc (o : AIOracle) (r : SingleBookResearchRequest) : Option BookResearch :=
  match research_book o r.title r.other_info with
  | .error _ => none
  | .ok research_output =>
    match o.embedCall research_output.info.as_string with
    | .error _ => none
    | .ok embedding =>
      if o.insertRaises r.title then none
      else some { provided_title := r.title, provided_other_info := r.other_info,
                  research_output := research_output, embedding := embedding }

/-- the terminal status `background_task_research` saves for one request. -/
def taskOutcome (o : AIOracle) (r : SingleBookResearchRequest) : TaskStatusEnum :=
  if (jobDoc o r).isSome then TaskStatusEnum.SUCCESS else TaskStatusEnum.FAILURE

/-- the task documents `research_book_async` creates for a batch, given
the id counter and clock at submission time. -/
def expectedTasks (nextId now : Nat) :
    List SingleBookResearchRequest → List ResearchTask
  | [] => []
  | r :: rest =>
    { id := nextId, title := r.title, other_info := r.other_info,
      status := TaskStatusEnum.WORKING, started_at := now } ::
      expectedTasks (nextId + 1) now rest

/-- the background jobs `research_book_async` queues for a batch. -/
def expectedJobs (nextId now : Nat) :
    List SingleBookResearchRequest → List PendingJob
  | [] => []
  | r :: rest =>
    { request := r,
      task := { id := nextId, title := r.title, other_info := r.other_info,
                status := TaskStatusEnum.WORKING, started_at := now } } ::
      expectedJobs (nextId + 1) now rest

/-! ### Concrete sample data for witnesses -/

/-- a concrete `BookResearchInfo` used in witnesses. -/
def sampleInfo : BookResearchInfo :=
  { title := "Dune", authors := ["Frank Herbert"], publication_year := 1965,
    isbn := "9780441013593", series_title := "Dune", series_entry_number := 1,
    series_description := "", other_series_entries := [], awards := [],
    bestseller_lists := [], critical_quotes := [], positive_quotes := [],
    critical_consensus := "", user_ratings := [], user_quotes := [],
    user_reception := "", page_count := 412, word_count := 188000,
    genres := ["science fiction"], description := "", emotional_tone := "",
    spicy_rating := "0", content_warnings := "", target_audience := "",
    reader_demographics := "", setting_time_place := "", general_style := "",
    pacing := "", reading_difficulty := "", narrative_pov := "",
    similar_works := [], frequently_compared_to := [], author_other_series := [],
    author_other_works := [], author_background := "" }

/-- a concrete `BookResearchOutput` used in witnesses. -/
def sampleOutput : BookResearchOutput :=
  { info := sampleInfo, sources := [] }

/-- a concrete search-stage response whose single candidate carries no
grounding metadata. -/
def sampleResponseNoMeta : GenerateContentResponse :=
  { text := "research text", candidates := [{ grounding_metadata := none }] }

/-- an oracle on which every external call succeeds. -/
def happyOracle : AIOracle :=
  { searchCall := fun _ _ => .ok sampleResponseNoMeta,
    structureCall := fun _ => .ok { parsed := some sampleInfo },
    embedCall := fun _ => .ok [1, 0],
    insertRaises := fun _ => false }

/-- an oracle on which the search-stage call raises exactly for the
title `"Book2"` (the engineered failure of the batch-isolation test). -/
def batchOracle : AIOracle :=
  { happyOracle with
    searchCall := fun title _ =>
      if title = "Book2" then .error (.providerError "ProviderUnavailable")
      else .ok sampleResponseNoMeta }

/-- the three-request batch of the batch-isolation scenario: the second
request is the one `batchOracle` makes fail. -/
def demoBatch : List SingleBookResearchRequest :=
  [{ title := "Book1", other_info := none },
   { title := "Book2", other_info := none },
   { title := "Book3", other_info := none }]

/-- an empty research store. -/
def emptyStore : ResearchStoreState :=
  { collectionExists := false, searchIndexes := [], entries := [] }

/-- a fresh world with no tasks and no research entries. -/
def sampleWorld : World :=
  { nextId := 0, now := 0, tasks := [], store := emptyStore }

/-- a concrete stored document with embedding `[1, 0]`. -/
def sampleDocA : BookResearch :=
  { provided_title := "A", provided_other_info := none,
    research_output := sampleOutput, embedding := [1, 0] }

/-- a concrete stored document with embedding `[0, 1]`. -/
def sampleDocB : BookResearch :=
  { provided_title := "B", provided_other_info := none,
    research_output := sampleOutput, embedding := [0, 1] }

/-- a store holding `sampleDocA` and `sampleDocB`. -/
def twoDocStore : ResearchStoreState :=
  { collectionExists := true, searchIndexes := [vectorIndexSpec],
    entries := [sampleDocA, sampleDocB] }

/-- ten search indexes with other names, as a collection may carry. -/
def tenForeignIndexes : List SearchIndexSpec :=
  ["idx0", "idx1", "idx2", "idx3", "idx4",
   "idx5", "idx6", "idx7", "idx8", "idx9"].map
    (fun n => { name := n, type := "search", fields := [] })

/-- a store whose collection exists and already lists ten other-named
search indexes, so `to_list(length=10)` never reaches anything appended
after them. -/
def tenIndexStore : ResearchStoreState :=
  { collectionExists := true, searchIndexes := tenForeignIndexes,
    entries := [] }

/-- a concrete `sim` oracle for witnesses: the first coordinate of the
stored embedding (so `sampleDocA` scores 1 and `sampleDocB` scores 0). -/
def headSim (_q v : List ℚ) : ℚ := v.headD 0

/-- the `insert_book` keyword arguments of the dimension-check
counterexample: all four arguments bound, with a length-1 embedding. -/
def shortEmbeddingKwargs : InsertBookKwargs :=
  { provided_title := some "Dune", provided_other_info := some none,
    research_output := some sampleOutput, embedding := some [1] }

/-- concrete grounding chunks citing the URL `u1` twice, under the
titles `First` and then `Second`, with an intervening non-web chunk and
a second URL `u2`. -/
def dupChunks : List GroundingChunk :=
  [{ web := some { title := "First", uri := "u1" } },
   { web := some { title := "Second", uri := "u1" } },
   { web := none },
   { web := some { title := "Third", uri := "u2" } }]

/-- grounding metadata holding `dupChunks`. -/
def dupMetadata : GroundingMetadata := { grounding_chunks := some dupChunks }

/-- a concrete search response whose single candidate carries
`dupMetadata`. -/
def dupChunksResponse : GenerateContentResponse :=
  { text := "t", candidates := [{ grounding_metadata := some dupMetadata }] }

/-! ## Theorems -/

/-- C1, counterexample: `BookResearch.insert_book` called with a
length-1 embedding (which is not the configured 768) on an empty store
returns `ok` and increments the entry count to 1 — it does not raise a
`DimensionMismatch` error and does not leave the entry count unchanged. -/
theorem c1_counterexample :
    (insert_book (fun _ => false) shortEmbeddingKwargs emptyStore).isOk = true
    ∧ (insert_book (fun _ => false) shortEmbeddingKwargs emptyStore).map
        (fun r => r.1.entries.length) = .ok 1
    ∧ shortEmbeddingKwargs.embedding.map List.length = some 1 :=
  ⟨rfl, rfl, rfl⟩

/-- C1, amended: `BookResearch.insert_book` performs no dimensionality
check.  For every embedding, of any length, a call binding all four
keyword arguments whose database write does not fault returns `ok`,
appending exactly the constructed document (so the entry count always
grows by one); the 768-dimension constraint exists only in the
`vector_index` definition created by `add_search_index`, not at
insertion. -/
theorem c1_amended (raises : String → Bool) (t : String) (oi : Option String)
    (ro : BookResearchOutput) (emb : List ℚ) (st : ResearchStoreState)
    (h : raises t = false) :
    insert_book raises
      { provided_title := some t, provided_other_info := some oi,
        research_output := some ro, embedding := some emb } st
      = .ok ({ st with entries := st.entries ++
                 [{ provided_title := t, provided_other_info := oi,
                    research_output := ro, embedding := emb }] },
             { provided_title := t, provided_other_info := oi,
               research_output := ro, embedding := emb })
    ∧ vectorIndexSpec.fields.map SearchIndexField.numDimensions = [768] :=
  ⟨by simp [insert_book, h], rfl⟩

/-- C1, witness for the amended theorem: a concrete non-faulting insert
with a length-1 embedding. -/
theorem c1_amended_witness :
    (fun _ => false : String → Bool) "Dune" = false
    ∧ insert_book (fun _ => false) shortEmbeddingKwargs emptyStore
        = .ok ({ emptyStore with entries :=
                   [{ provided_title := "Dune", provided_other_info := none,
                      research_output := sampleOutput, embedding := [1] }] },
               { provided_title := "Dune", provided_other_info := none,
                 research_output := sampleOutput, embedding := [1] }) :=
  ⟨rfl, (c1_amended (fun _ => false) "Dune" none sampleOutput [1] emptyStore rfl).1⟩

/-- C6, counterexample: against a store already listing ten other-named
search indexes, the first `add_search_index` call appends `vector_index`
at position 11, and the second call — whose `to_list(length=10)` listing
never reaches it — re-issues `create_search_index` with the duplicate
name and errors instead of being a no-op. -/
theorem c6_counterexample :
    add_search_index tenIndexStore
      = .ok { collectionExists := true,
              searchIndexes := tenForeignIndexes ++ [vectorIndexSpec],
              entries := [] }
    ∧ add_search_index
        { collectionExists := true,
          searchIndexes := tenForeignIndexes ++ [vectorIndexSpec],
          entries := [] }
      = .error .duplicateIndexName :=
  ⟨rfl, rfl⟩

/-- C6, amended: `add_search_index` inspects only the first 10 listed
search indexes (`to_list(length=10)`), so idempotence holds exactly when
that truncated listing covers `vector_index` — in particular, starting
from any store listing at most 9 search indexes, at most one of them
named `vector_index`: then the call returns without error, a second call
also returns without error and is a no-op on the state, and afterwards
exactly one `vector_index` exists, whether or not the collection or the
index existed beforehand.  With `vector_index` pushed beyond the 10th
position, the second call errors instead (see the counterexample). -/
theorem c6_amended (st : ResearchStoreState)
    (hlen : st.searchIndexes.length ≤ 9)
    (h : st.searchIndexes.countP (fun i => i.name == "vector_index") ≤ 1) :
    ∃ st1 st2,
      add_search_index st = .ok st1 ∧
      add_search_index st1 = .ok st2 ∧
      st2 = st1 ∧
      st1.searchIndexes.countP (fun i => i.name == "vector_index") = 1 := by
  have htake : st.searchIndexes.take 10 = st.searchIndexes :=
    List.take_of_length_le (by omega)
  have htake1 : (st.searchIndexes ++ [vectorIndexSpec]).take 10
      = st.searchIndexes ++ [vectorIndexSpec] :=
    List.take_of_length_le (by simp; omega)
  have hcount1 : st.searchIndexes.any (fun i => i.name == "vector_index") = true →
      st.searchIndexes.countP (fun i => i.name == "vector_index") = 1 := by
    intro hA
    have h1 : 0 < st.searchIndexes.countP (fun i => i.name == "vector_index") := by
      rw [List.countP_pos_iff]
      simpa using List.any_eq_true.mp hA
    omega
  have hcount0 : st.searchIndexes.any (fun i => i.name == "vector_index") = false →
      st.searchIndexes.countP (fun i => i.name == "vector_index") = 0 := by
    intro hA
    exact List.countP_eq_zero.mpr (List.any_eq_false.mp hA)
  by_cases hc : st.collectionExists
  · by_cases hA : st.searchIndexes.any (fun i => i.name == "vector_index")
    · refine ⟨st, st, ?_, ?_, rfl, hcount1 hA⟩
      · simp [add_search_index, createCollection, hc, htake, hA]
      · simp [add_search_index, createCollection, hc, htake, hA]
    · refine ⟨⟨st.collectionExists, st.searchIndexes ++ [vectorIndexSpec], st.entries⟩,
              ⟨st.collectionExists, st.searchIndexes ++ [vectorIndexSpec], st.entries⟩,
              ?_, ?_, rfl, ?_⟩
      · simp [add_search_index, createCollection, createSearchIndex, hc, htake, hA,
          vectorIndexSpec]
      · have hany : ((st.searchIndexes ++ [vectorIndexSpec]).take 10).any
            (fun i => i.name == "vector_index") = true := by
          rw [htake1]
          simp [vectorIndexSpec]
        simp [add_search_index, createCollection, hc, hany]
      · simp [List.countP_append, hcount0 (by simpa using hA), vectorIndexSpec]
  · by_cases hA : st.searchIndexes.any (fun i => i.name == "vector_index")
    · refine ⟨⟨true, st.searchIndexes, st.entries⟩,
              ⟨true, st.searchIndexes, st.entries⟩, ?_, ?_, rfl, hcount1 hA⟩
      · simp [add_search_index, createCollection, hc, htake, hA]
      · simp [add_search_index, createCollection, hc, htake, hA]
    · refine ⟨⟨true, st.searchIndexes ++ [vectorIndexSpec], st.entries⟩,
              ⟨true, st.searchIndexes ++ [vectorIndexSpec], st.entries⟩,
              ?_, ?_, rfl, ?_⟩
      · simp [add_search_index, createCollection, createSearchIndex, hc, htake, hA,
          vectorIndexSpec]
      · have hany : ((st.searchIndexes ++ [vectorIndexSpec]).take 10).any
            (fun i => i.name == "vector_index") = true := by
          rw [htake1]
          simp [vectorIndexSpec]
        simp [add_search_index, createCollection, hc, hany]
      · simp [List.countP_append, hcount0 (by simpa using hA), vectorIndexSpec]

/-- C6, witness for the amended theorem: the fresh empty store (0 ≤ 9
indexes). -/
theorem c6_amended_witness :
    ∃ st1 st2,
      add_search_index emptyStore = .ok st1 ∧
      add_search_index st1 = .ok st2 ∧
      st2 = st1 ∧
      st1.searchIndexes.countP (fun i => i.name == "vector_index") = 1 :=
  c6_amended emptyStore (by decide) (by decide)

/-- C8: a successful two-stage research call whose search-stage response
carries no grounding metadata returns a `BookResearchOutput` with an
empty sources list, raising no error. -/
theorem c8 (o : AIOracle) (title : String) (other_info : Option String)
    (resp : GenerateContentResponse) (c : Candidate) (cs : List Candidate)
    (info : BookResearchInfo)
    (h1 : o.searchCall title other_info = .ok resp)
    (h2 : resp.candidates = c :: cs)
    (h3 : c.grounding_metadata = none)
    (h4 : o.structureCall resp.text = .ok { parsed := some info }) :
    research_book o title other_info = .ok { info := info, sources := [] } := by
  simp [research_book, search_book_info, structure_book_info, get_unique_sources,
    h1, h2, h3, h4, bind, Except.bind, pure, Except.pure]

/-- C8, witness: the concrete happy-path oracle, whose search response
has one candidate with no grounding metadata. -/
theorem c8_witness :
    research_book happyOracle "Dune" none = .ok sampleOutput :=
  c8 happyOracle "Dune" none sampleResponseNoMeta { grounding_metadata := none }
    [] sampleInfo rfl rfl rfl rfl

/-- C9: the synchronous `research_and_insert` endpoint never returns
successfully — whatever the oracle, request and world — and whenever the
research stage itself succeeds, the failure is precisely the `TypeError`
for the missing required `embedding` argument of
`BookResearch.insert_book`. -/
theorem c9 (o : AIOracle) (request : SingleBookResearchRequest) (w : World) :
    (research_and_insert o request w).isOk = false
    ∧ ∀ ro, research_book o request.title request.other_info = .ok ro →
        research_and_insert o request w
          = .error (.typeErrorMissingArgs ["embedding"]) := by
  constructor
  · cases hr : research_book o request.title request.other_info with
    | error e => simp [research_and_insert, hr, bind, Except.bind, Except.isOk, Except.toBool]
    | ok ro =>
      simp [research_and_insert, hr, insert_book, InsertBookKwargs.missing,
        bind, Except.bind, Except.isOk, Except.toBool]
  · intro ro hro
    simp [research_and_insert, hro, insert_book, InsertBookKwargs.missing,
      bind, Except.bind]

/-- C9, witness: with the happy-path oracle (research succeeds), the
endpoint still fails with the missing-`embedding` `TypeError`. -/
theorem c9_witness :
    (research_and_insert happyOracle { title := "Dune", other_info := none }
        sampleWorld).isOk = false
    ∧ research_and_insert happyOracle { title := "Dune", other_info := none }
        sampleWorld = .error (.typeErrorMissingArgs ["embedding"]) :=
  ⟨(c9 happyOracle { title := "Dune", other_info := none } sampleWorld).1,
   (c9 happyOracle { title := "Dune", other_info := none } sampleWorld).2
     sampleOutput rfl⟩

/-- `vector_similarity` evaluates to `ok []` when nothing matches: an
empty collection or a zero limit. -/
theorem vector_similarity_ok_empty (sim : List ℚ → List ℚ → ℚ)
    (st : ResearchStoreState) (qv : List ℚ) (k : Nat)
    (h : st.entries = [] ∨ k = 0) :
    vector_similarity sim st qv k = .ok [] := by
  unfold vector_similarity vectorSearchStageExec mkVectorSearchStage
  dsimp only
  rcases h with h | h
  · rw [h]
    simp [List.mapM.loop, pure, Except.pure]
  · rw [h]
    simp [List.mapM.loop, pure, Except.pure]

/-- `vector_similarity` raises the pydantic validation error whenever
the search matches at least one document (nonempty collection, nonzero
limit): the `$project` keeps only `_id` and `similarity`, so the
`projection_model` parse of the first result document fails. -/
theorem vector_similarity_error_nonempty (sim : List ℚ → List ℚ → ℚ)
    (st : ResearchStoreState) (qv : List ℚ) (k : Nat)
    (h1 : st.entries ≠ []) (h2 : k ≠ 0) :
    vector_similarity sim st qv k = .error .validationError := by
  unfold vector_similarity vectorSearchStageExec mkVectorSearchStage
  dsimp only
  obtain ⟨x, xs, hsort⟩ : ∃ x xs, st.entries.insertionSort
      (fun a b => sim qv b.embedding ≤ sim qv a.embedding) = x :: xs := by
    cases hs : st.entries.insertionSort
        (fun a b => sim qv b.embedding ≤ sim qv a.embedding) with
    | nil =>
      exfalso
      have hlen := List.length_insertionSort
        (fun a b => sim qv b.embedding ≤ sim qv a.embedding) st.entries
      rw [hs] at hlen
      exact h1 (List.length_eq_zero.mp hlen.symm)
    | cons a l => exact ⟨a, l, rfl⟩
  rw [hsort]
  obtain ⟨m, hm⟩ : ∃ m, k * 10 = m + 1 := ⟨k * 10 - 1, by omega⟩
  obtain ⟨m2, hm2⟩ : ∃ m2, k = m2 + 1 := ⟨k - 1, by omega⟩
  rw [hm, hm2, List.take_succ_cons, List.take_succ_cons]
  simp [List.mapM.loop, projectSimilarityStage, parseBookResearchWithSimilarity,
    bind, Except.bind]

/-- C10, counterexample: over the concrete two-document store (where the
vector search matches documents), the tool fails with the pydantic
validation error raised inside `vector_similarity` — not the claimed
`AttributeError` on `book.book`. -/
theorem c10_counterexample :
    search_books happyOracle headSim (fun _ => "") twoDocStore "q"
      = .error .validationError
    ∧ PyErr.validationError ≠ PyErr.attributeError "book" :=
  ⟨rfl, by decide⟩

/-- C10, amended: the nonempty-result branch of the MCP `search_books`
tool is unreachable — over any store with entries, `vector_similarity`
raises a validation error (its `$project` strips the base fields) before
the formatting loop runs, so the tool fails with that validation error,
not with `AttributeError`; when the search yields zero documents the
tool returns the empty string.  The `book.book` bug is real but dead
code: had the formatting loop ever received a nonempty list, its first
iteration would raise the `AttributeError` on `book`, an attribute
`BookResearchWithSimilarity` does not define. -/
theorem c10_amended (o : AIOracle) (sim : List ℚ → List ℚ → ℚ)
    (render : BookResearchWithSimilarity → String) (st : ResearchStoreState)
    (q : String) (qv : List ℚ) (h : o.embedCall q = .ok qv) :
    (vector_similarity sim st qv 5 = .ok [] →
        search_books o sim render st q = .ok "")
    ∧ (st.entries ≠ [] →
        search_books o sim render st q = .error .validationError)
    ∧ ∀ (b : BookResearchWithSimilarity) (bs : List BookResearchWithSimilarity),
        formatLoop render 0 "" (b :: bs) = .error (.attributeError "book") := by
  have hattr : pyGetattr bookResearchWithSimilarityAttrs "book"
      = .error (.attributeError "book") := rfl
  refine ⟨?_, ?_, ?_⟩
  · intro hb
    simp [search_books, h, hb, formatLoop, bind, Except.bind]
  · intro hne
    have hv := vector_similarity_error_nonempty sim st qv 5 hne (by decide)
    simp [search_books, h, hv, bind, Except.bind]
  · intro b bs
    simp [formatLoop, hattr]

/-- C10, witness for the amended theorem: the empty store yields `""`,
the two-document store yields the validation error. -/
theorem c10_amended_witness :
    search_books happyOracle headSim (fun _ => "") emptyStore "q" = .ok ""
    ∧ search_books happyOracle headSim (fun _ => "") twoDocStore "q"
        = .error .validationError :=
  ⟨(c10_amended happyOracle headSim (fun _ => "") emptyStore "q" [1, 0] rfl).1 rfl,
   (c10_amended happyOracle headSim (fun _ => "") twoDocStore "q" [1, 0] rfl).2.1
     (by decide)⟩

/-! ### Lemmas about the source-deduplication fold (claim C4) -/

/-- the chunk-level fold equals the pair-level fold over the web
payloads: chunks without a web citation leave the dict untouched. -/
theorem foldl_sourcesStep_eq_pair (chunks : List GroundingChunk)
    (acc : List (String × String)) :
    chunks.foldl sourcesStep acc
      = (chunks.filterMap GroundingChunk.web).foldl sourcesPairStep acc := by
  induction chunks generalizing acc with
  | nil => rfl
  | cons ch rest ih =>
    cases hw : ch.web with
    | none => simp [sourcesStep, hw, List.filterMap_cons, ih]
    | some w => simp [sourcesStep, sourcesPairStep, hw, List.filterMap_cons, ih]

/-- the `url in sources` membership test of the loop agrees with key
membership of the association list. -/
theorem any_key_eq (acc : List (String × String)) (u : String) :
    acc.any (fun kv => kv.1 == u) = true ↔ u ∈ acc.map Prod.fst := by
  rw [List.any_eq_true]
  constructor
  · rintro ⟨kv, hkv, hbeq⟩
    exact List.mem_map.mpr ⟨kv, hkv, beq_iff_eq.mp hbeq⟩
  · intro hmem
    rcases List.mem_map.mp hmem with ⟨kv, hkv, hfst⟩
    exact ⟨kv, hkv, beq_iff_eq.mpr hfst⟩

/-- a key is in the folded dict iff it was in the accumulator or is one
of the cited URLs. -/
theorem pairFold_mem_keys (ws : List GroundingChunkWeb) :
    ∀ (acc : List (String × String)) (u : String),
      (u ∈ (ws.foldl sourcesPairStep acc).map Prod.fst
        ↔ u ∈ acc.map Prod.fst ∨ u ∈ ws.map GroundingChunkWeb.uri) := by
  induction ws with
  | nil => simp
  | cons w rest ih =>
    intro acc u
    rw [List.foldl_cons]
    by_cases hk : acc.any (fun kv => kv.1 == w.uri) = true
    · have hmem : w.uri ∈ acc.map Prod.fst := (any_key_eq acc w.uri).mp hk
      rw [show sourcesPairStep acc w = acc by simp [sourcesPairStep, hk]]
      rw [ih acc u]
      simp only [List.map_cons, List.mem_cons]
      constructor
      · rintro (h | h)
        · exact Or.inl h
        · exact Or.inr (Or.inr h)
      · rintro (h | h | h)
        · exact Or.inl h
        · exact Or.inl (h ▸ hmem)
        · exact Or.inr h
    · rw [show sourcesPairStep acc w = acc ++ [(w.uri, w.title)] by
        simp [sourcesPairStep, hk]]
      rw [ih (acc ++ [(w.uri, w.title)]) u]
      simp only [List.map_append, List.map_cons, List.map_nil, List.mem_append,
        List.mem_cons, List.mem_singleton, List.not_mem_nil, or_false]
      tauto

/-- folding preserves key-uniqueness of the dict. -/
theorem pairFold_nodup (ws : List GroundingChunkWeb) :
    ∀ acc : List (String × String), (acc.map Prod.fst).Nodup →
      ((ws.foldl sourcesPairStep acc).map Prod.fst).Nodup := by
  induction ws with
  | nil => exact fun acc h => h
  | cons w rest ih =>
    intro acc hacc
    rw [List.foldl_cons]
    by_cases hk : acc.any (fun kv => kv.1 == w.uri) = true
    · rw [show sourcesPairStep acc w = acc by simp [sourcesPairStep, hk]]
      exact ih acc hacc
    · rw [show sourcesPairStep acc w = acc ++ [(w.uri, w.title)] by
        simp [sourcesPairStep, hk]]
      refine ih _ ?_
      have hni : w.uri ∉ acc.map Prod.fst := fun hmem =>
        hk ((any_key_eq acc w.uri).mpr hmem)
      simp [List.nodup_append, hacc, hni]

/-- every pair of the folded dict either was already in the accumulator
or records the first cited occurrence of its URL, with that occurrence's
title. -/
theorem pairFold_find (ws : List GroundingChunkWeb) :
    ∀ acc : List (String × String), ∀ p ∈ ws.foldl sourcesPairStep acc,
      p ∈ acc ∨ (p.1 ∉ acc.map Prod.fst
        ∧ ws.find? (fun w => w.uri == p.1) = some ⟨p.2, p.1⟩) := by
  induction ws with
  | nil => exact fun acc p hp => Or.inl hp
  | cons w rest ih =>
    intro acc p hp
    rw [List.foldl_cons] at hp
    by_cases hk : acc.any (fun kv => kv.1 == w.uri) = true
    · rw [show sourcesPairStep acc w = acc by simp [sourcesPairStep, hk]] at hp
      rcases ih acc p hp with h | ⟨hnk, hfind⟩
      · exact Or.inl h
      · refine Or.inr ⟨hnk, ?_⟩
        have hne : (w.uri == p.1) = false := by
          rw [beq_eq_false_iff_ne]
          intro he
          exact hnk (he ▸ (any_key_eq acc w.uri).mp hk)
        rw [List.find?_cons_of_neg _ (by simp [hne]), hfind]
    · rw [show sourcesPairStep acc w = acc ++ [(w.uri, w.title)] by
        simp [sourcesPairStep, hk]] at hp
      have hni : w.uri ∉ acc.map Prod.fst := fun hmem =>
        hk ((any_key_eq acc w.uri).mpr hmem)
      rcases ih _ p hp with h | ⟨hnk, hfind⟩
      · rcases List.mem_append.mp h with h | h
        · exact Or.inl h
        · have hpw : p = (w.uri, w.title) := by simpa using h
          subst hpw
          refine Or.inr ⟨hni, ?_⟩
          rw [List.find?_cons_of_pos _ (by simp)]
      · rw [List.map_append] at hnk
        simp only [List.mem_append, List.map_cons, List.map_nil,
          List.mem_singleton, not_or] at hnk
        refine Or.inr ⟨hnk.1, ?_⟩
        have hne : (w.uri == p.1) = false := by
          rw [beq_eq_false_iff_ne]
          intro he
          exact hnk.2 (by simpa using he.symm)
        rw [List.find?_cons_of_neg _ (by simp [hne]), hfind]

/-- evaluation of `_get_unique_sources` when the first candidate carries
grounding metadata: the fold over its chunks, rendered as sources. -/
theorem get_unique_sources_eq (resp : GenerateContentResponse) (c : Candidate)
    (cs : List Candidate) (md : GroundingMetadata)
    (h1 : resp.candidates = c :: cs) (h2 : c.grounding_metadata = some md) :
    get_unique_sources resp
      = .ok (((md.grounding_chunks.getD []).foldl sourcesStep []).map
          (fun kv => { name := kv.2, url := kv.1 })) := by
  unfold get_unique_sources
  rw [h1]
  simp only [h2]
  cases md.grounding_chunks <;> rfl

/-- C4: for every search response whose first candidate carries grounding
metadata, the sources list computed by `_get_unique_sources` contains
each distinct cited URL exactly once (its URL list has no duplicates and
holds exactly the cited URLs), and each entry carries the title of the
first grounding chunk citing that URL. -/
theorem c4 (resp : GenerateContentResponse) (c : Candidate)
    (cs : List Candidate) (md : GroundingMetadata)
    (h1 : resp.candidates = c :: cs) (h2 : c.grounding_metadata = some md)
    (out : List ResearchSource) (hout : get_unique_sources resp = .ok out) :
    (out.map ResearchSource.url).Nodup
    ∧ (∀ u, u ∈ out.map ResearchSource.url
        ↔ u ∈ ((md.grounding_chunks.getD []).filterMap GroundingChunk.web).map
            GroundingChunkWeb.uri)
    ∧ ∀ s ∈ out,
        ((md.grounding_chunks.getD []).filterMap GroundingChunk.web).find?
          (fun w => w.uri == s.url) = some ⟨s.name, s.url⟩ := by
  have hout2 : out = ((md.grounding_chunks.getD []).foldl sourcesStep []).map
      (fun kv => { name := kv.2, url := kv.1 }) := by
    have h := (get_unique_sources_eq resp c cs md h1 h2).symm.trans hout
    exact ((Except.ok.injEq _ _).mp h.symm)
  rw [foldl_sourcesStep_eq_pair] at hout2
  set ws := (md.grounding_chunks.getD []).filterMap GroundingChunk.web with hws
  have hurl : out.map ResearchSource.url = (ws.foldl sourcesPairStep []).map Prod.fst := by
    rw [hout2, List.map_map]
    rfl
  refine ⟨?_, ?_, ?_⟩
  · rw [hurl]
    exact pairFold_nodup ws [] (by simp)
  · intro u
    rw [hurl, pairFold_mem_keys ws [] u]
    simp
  · intro s hs
    rw [hout2] at hs
    rcases List.mem_map.mp hs with ⟨kv, hkv, hmk⟩
    rcases pairFold_find ws [] kv hkv with h | ⟨_, hfind⟩
    · exact absurd h (List.not_mem_nil kv)
    · rw [← hmk]
      exact hfind

/-- C4, witness: the concrete response citing `u1` twice with different
titles yields `u1` once with the first title `First`, plus `u2` once. -/
theorem c4_witness :
    ([{ name := "First", url := "u1" },
      { name := "Third", url := "u2" }].map ResearchSource.url).Nodup
    ∧ ((dupMetadata.grounding_chunks.getD []).filterMap GroundingChunk.web).find?
        (fun w => w.uri == "u1") = some { title := "First", uri := "u1" } :=
  ⟨(c4 dupChunksResponse { grounding_metadata := some dupMetadata } []
      dupMetadata rfl rfl
      [{ name := "First", url := "u1" }, { name := "Third", url := "u2" }] rfl).1,
   (c4 dupChunksResponse { grounding_metadata := some dupMetadata } []
      dupMetadata rfl rfl
      [{ name := "First", url := "u1" }, { name := "Third", url := "u2" }] rfl).2.2
     { name := "First", url := "u1" } (by decide)⟩

/-! ### Lemmas about the task-creation loop (claims C3 and C2) -/

/-- full characterization of `research_book_async`: it returns the tasks
of `expectedTasks`, queues the jobs of `expectedJobs`, advances the id
counter by the batch size and appends the created tasks to the task
collection. -/
theorem research_book_async_eq (books : List SingleBookResearchRequest) :
    ∀ w : World,
      research_book_async books w =
        (expectedTasks w.nextId w.now books, expectedJobs w.nextId w.now books,
         { w with nextId := w.nextId + books.length,
                  tasks := w.tasks ++ expectedTasks w.nextId w.now books }) := by
  induction books with
  | nil => intro w; simp [research_book_async, expectedTasks, expectedJobs]
  | cons r rest ih =>
    intro w
    rw [research_book_async]
    simp only [insert_research_task]
    rw [ih]
    simp [expectedTasks, expectedJobs, List.length_cons]
    omega

/-- every task of `expectedTasks` is created in the `WORKING` state. -/
theorem expectedTasks_status (now : Nat) (books : List SingleBookResearchRequest) :
    ∀ n, ∀ t ∈ expectedTasks n now books, t.status = TaskStatusEnum.WORKING := by
  induction books with
  | nil => intro n t ht; simp [expectedTasks] at ht
  | cons r rest ih =>
    intro n t ht
    rw [expectedTasks] at ht
    rcases List.mem_cons.mp ht with h | h
    · rw [h]
    · exact ih (n + 1) t h

/-- `expectedTasks` has one task per request. -/
theorem expectedTasks_length (now : Nat) (books : List SingleBookResearchRequest) :
    ∀ n, (expectedTasks n now books).length = books.length := by
  induction books with
  | nil => intro n; rfl
  | cons r rest ih => intro n; simp [expectedTasks, ih (n + 1)]

/-- `expectedTasks` carries the requests' titles and other-info in
request order. -/
theorem expectedTasks_titles (now : Nat) (books : List SingleBookResearchRequest) :
    ∀ n, (expectedTasks n now books).map (fun t => (t.title, t.other_info))
      = books.map (fun b => (b.title, b.other_info)) := by
  induction books with
  | nil => intro n; rfl
  | cons r rest ih => intro n; simp [expectedTasks, ih (n + 1)]

/-- the ids of `expectedTasks` are the consecutive naturals from the
submission-time counter. -/
theorem expectedTasks_ids (now : Nat) (books : List SingleBookResearchRequest) :
    ∀ n, (expectedTasks n now books).map ResearchTask.id
      = List.range' n books.length := by
  induction books with
  | nil => intro n; rfl
  | cons r rest ih => intro n; simp [expectedTasks, List.range', ih (n + 1)]

/-- each queued job carries the task created for it. -/
theorem expectedJobs_task (now : Nat) (books : List SingleBookResearchRequest) :
    ∀ n, (expectedJobs n now books).map PendingJob.task = expectedTasks n now books := by
  induction books with
  | nil => intro n; rfl
  | cons r rest ih => intro n; simp [expectedTasks, expectedJobs, ih (n + 1)]

/-- each queued job carries its request; jobs are in request order. -/
theorem expectedJobs_request (now : Nat) (books : List SingleBookResearchRequest) :
    ∀ n, (expectedJobs n now books).map PendingJob.request = books := by
  induction books with
  | nil => intro n; rfl
  | cons r rest ih => intro n; simp [expectedJobs, ih (n + 1)]

/-- C3: submitting a batch of N requests creates and persists exactly N
`ResearchTask` records, one per request in request order, each with
status `WORKING`, and returns that full list synchronously: the returned
list and the persisted tasks are fixed by `research_book_async` alone —
no AI oracle is consulted — and the dispatched background work
(`runBackground`) only runs afterwards, over the already-returned
tasks. -/
theorem c3 (books : List SingleBookResearchRequest) (w : World) :
    ((research_book_async books w).1.length = books.length)
    ∧ (∀ t ∈ (research_book_async books w).1, t.status = TaskStatusEnum.WORKING)
    ∧ ((research_book_async books w).1.map (fun t => (t.title, t.other_info))
        = books.map (fun b => (b.title, b.other_info)))
    ∧ ((research_book_async books w).2.2.tasks
        = w.tasks ++ (research_book_async books w).1)
    ∧ ((research_book_async books w).2.1.map PendingJob.task
        = (research_book_async books w).1)
    ∧ ∀ o, submitBatchAndRun o books w
        = runBackground o (research_book_async books w).2.1
            (research_book_async books w).2.2 := by
  rw [research_book_async_eq]
  refine ⟨expectedTasks_length w.now books w.nextId,
          expectedTasks_status w.now books w.nextId,
          expectedTasks_titles w.now books w.nextId,
          rfl,
          expectedJobs_task w.now books w.nextId,
          fun o => ?_⟩
  rw [submitBatchAndRun, research_book_async_eq]

/-- C3, witness: a concrete two-request batch over the fresh world. -/
theorem c3_witness :
    ((research_book_async
        [{ title := "Book1", other_info := none },
         { title := "Book2", other_info := some "x" }] sampleWorld).1.length = 2)
    ∧ ((research_book_async
        [{ title := "Book1", other_info := none },
         { title := "Book2", other_info := some "x" }] sampleWorld).1.map
          (fun t => (t.title, t.other_info))
        = [("Book1", none), ("Book2", some "x")]) :=
  ⟨(c3 [{ title := "Book1", other_info := none },
        { title := "Book2", other_info := some "x" }] sampleWorld).1,
   (c3 [{ title := "Book1", other_info := none },
        { title := "Book2", other_info := some "x" }] sampleWorld).2.2.1⟩

/-! ### Lemmas about the background jobs (claim C2) -/

/-- one background job in one equation: it appends the job's document
(if any) to the research store and saves the job's task with the
terminal status determined by the job's own outcome. -/
theorem background_task_research_eq (o : AIOracle)
    (r : SingleBookResearchRequest) (t : ResearchTask) (w : World) :
    background_task_research o r t w =
      saveTask { t with status := taskOutcome o r }
        { w with store := { w.store with
            entries := w.store.entries ++ (jobDoc o r).toList } } := by
  unfold background_task_research taskOutcome jobDoc
  cases hr : research_book o r.title r.other_info with
  | error e => simp [hr]
  | ok ro =>
    cases he : o.embedCall ro.info.as_string with
    | error e => simp [hr, he]
    | ok emb =>
      by_cases hf : o.insertRaises r.title
      · simp [hr, he, insert_book, hf]
      · simp [hr, he, insert_book, hf]

/-- unfolding one step of the background queue. -/
theorem runBackground_cons (o : AIOracle) (j : PendingJob)
    (jobs : List PendingJob) (w : World) :
    runBackground o (j :: jobs) w
      = runBackground o jobs (background_task_research o j.request j.task w) := rfl

/-- the research store after the background queue drains: the initial
entries followed by exactly the documents of the jobs that succeed, in
job order — a failing job contributes nothing, and failing jobs do not
disturb their siblings' documents. -/
theorem runBackground_store (o : AIOracle) (jobs : List PendingJob) :
    ∀ w : World, (runBackground o jobs w).store.entries
      = w.store.entries ++ (jobs.map PendingJob.request).filterMap (jobDoc o) := by
  induction jobs with
  | nil => intro w; simp [runBackground]
  | cons j rest ih =>
    intro w
    rw [runBackground_cons, ih, background_task_research_eq]
    cases hd : jobDoc o j.request <;>
      simp [saveTask, hd, List.filterMap_cons]

/-- saving a task leaves the multiset of task ids unchanged (the saved
document keeps its id). -/
theorem saveTask_ids (t : ResearchTask) (w : World) :
    (saveTask t w).tasks.map ResearchTask.id = w.tasks.map ResearchTask.id := by
  rw [saveTask, List.map_map]
  refine List.map_congr_left ?_
  intro u _
  by_cases hu : u.id = t.id
  · simp [hu]
  · simp [hu]

/-- a task id resolves iff some stored task has it. -/
theorem findTask_isSome_iff (w : World) (id : Nat) :
    (findTask w id).isSome ↔ id ∈ w.tasks.map ResearchTask.id := by
  rw [findTask, List.find?_isSome]
  constructor
  · rintro ⟨u, hu, hid⟩
    exact List.mem_map.mpr ⟨u, hu, of_decide_eq_true hid⟩
  · intro h
    rcases List.mem_map.mp h with ⟨u, hu, hid⟩
    exact ⟨u, hu, decide_eq_true hid⟩

/-- list form of `task.save` followed by a lookup of the saved id: when
some stored document has the id, the lookup yields the saved document. -/
theorem find_replace_self (t : ResearchTask) :
    ∀ l : List ResearchTask, (l.find? (fun u => u.id = t.id)).isSome →
      (l.map (fun u => if u.id = t.id then t else u)).find?
        (fun u => u.id = t.id) = some t := by
  intro l
  induction l with
  | nil => intro h; simp [List.find?] at h
  | cons u rest ih =>
    intro h
    by_cases hu : u.id = t.id
    · rw [List.map_cons, if_pos hu, List.find?_cons_of_pos _ (by simp)]
    · rw [List.find?_cons_of_neg _ (by simpa using hu)] at h
      rw [List.map_cons, if_neg hu, List.find?_cons_of_neg _ (by simpa using hu)]
      exact ih h

/-- list form of `task.save` followed by a lookup of a different id: the
lookup is undisturbed. -/
theorem find_replace_other (t : ResearchTask) (id : Nat) (h : id ≠ t.id) :
    ∀ l : List ResearchTask,
      (l.map (fun u => if u.id = t.id then t else u)).find?
          (fun u => u.id = id)
        = l.find? (fun u => u.id = id) := by
  intro l
  induction l with
  | nil => rfl
  | cons u rest ih =>
    by_cases hu : u.id = t.id
    · have hne : ¬ t.id = id := fun he => h he.symm
      have hne2 : ¬ u.id = id := fun he => hne (hu ▸ he)
      rw [List.map_cons, if_pos hu, List.find?_cons_of_neg _ (by simpa using hne),
        List.find?_cons_of_neg _ (by simpa using hne2)]
      exact ih
    · rw [List.map_cons, if_neg hu]
      by_cases hui : u.id = id
      · rw [List.find?_cons_of_pos _ (by simpa using hui),
          List.find?_cons_of_pos _ (by simpa using hui)]
      · rw [List.find?_cons_of_neg _ (by simpa using hui),
          List.find?_cons_of_neg _ (by simpa using hui)]
        exact ih

/-- saving a task makes its id resolve to the saved document (provided a
document with that id exists, as `task.save` replaces in place). -/
theorem findTask_saveTask_self (t : ResearchTask) (w : World)
    (h : (findTask w t.id).isSome) :
    findTask (saveTask t w) t.id = some t :=
  find_replace_self t w.tasks h

/-- saving a task does not disturb lookups of other ids. -/
theorem findTask_saveTask_other (t : ResearchTask) (w : World) (id : Nat)
    (h : id ≠ t.id) :
    findTask (saveTask t w) id = findTask w id :=
  find_replace_other t id h w.tasks

/-- one background job leaves the multiset of task ids unchanged. -/
theorem background_ids (o : AIOracle) (r : SingleBookResearchRequest)
    (t : ResearchTask) (w : World) :
    (background_task_research o r t w).tasks.map ResearchTask.id
      = w.tasks.map ResearchTask.id := by
  rw [background_task_research_eq]
  exact saveTask_ids _ _

/-- draining jobs that do not own an id does not disturb that id's
lookup. -/
theorem findTask_runBackground_other (o : AIOracle) (jobs : List PendingJob)
    (id : Nat) (h : ∀ j ∈ jobs, j.task.id ≠ id) :
    ∀ w, findTask (runBackground o jobs w) id = findTask w id := by
  induction jobs with
  | nil => intro w; rfl
  | cons j rest ih =>
    intro w
    rw [runBackground_cons,
      ih (fun j2 hj2 => h j2 (List.mem_cons_of_mem _ hj2)) _,
      background_task_research_eq]
    exact findTask_saveTask_other
      { j.task with status := taskOutcome o j.request } _ id
      (Ne.symm (h j (List.mem_cons_self j rest)))

/-- after the queue drains, each job's task holds exactly the terminal
status of that job's own outcome — sibling jobs, failing or not, do not
affect it. -/
theorem runBackground_status (o : AIOracle) (jobs : List PendingJob) :
    ∀ w : World, (jobs.map (fun j => j.task.id)).Nodup →
      (∀ j ∈ jobs, (findTask w j.task.id).isSome) →
      ∀ j ∈ jobs, findTask (runBackground o jobs w) j.task.id
        = some { j.task with status := taskOutcome o j.request } := by
  induction jobs with
  | nil => intro w _ _ j hj; cases hj
  | cons j0 rest ih =>
    intro w hnd hpresent j hj
    have hnd0 : j0.task.id ∉ rest.map (fun j => j.task.id) :=
      (List.nodup_cons.mp hnd).1
    rw [runBackground_cons]
    rcases List.mem_cons.mp hj with rfl | hjr
    · have h1 : findTask (background_task_research o j.request j.task w) j.task.id
          = some { j.task with status := taskOutcome o j.request } := by
        rw [background_task_research_eq]
        exact findTask_saveTask_self _ _ (hpresent j (List.mem_cons_self j rest))
      rw [findTask_runBackground_other o rest j.task.id
        (fun jr hjr hid => hnd0 (hid ▸ List.mem_map_of_mem (fun x => x.task.id) hjr)) _]
      exact h1
    · refine ih _ (List.nodup_cons.mp hnd).2 ?_ j hjr
      intro jr hjrr
      rw [findTask_isSome_iff, background_ids]
      have hp := hpresent jr (List.mem_cons_of_mem _ hjrr)
      rw [findTask_isSome_iff] at hp
      exact hp

/-- C2: for every batch, after all dispatched jobs run, (1) the research
store holds the initial entries plus exactly the documents of the
succeeding tasks, in order — a task whose research, embedding or insert
step raises contributes no `ResearchStoreEntry`; and (2) each created
task's record ends at the terminal status of its own outcome
(`SUCCESS` exactly when its `jobDoc` exists, `FAILURE` when its job
raised), regardless of the outcomes of its sibling tasks. -/
theorem c2 (o : AIOracle) (books : List SingleBookResearchRequest) (w : World) :
    ((submitBatchAndRun o books w).store.entries
      = w.store.entries ++ books.filterMap (jobDoc o))
    ∧ ∀ j ∈ (research_book_async books w).2.1,
        findTask (submitBatchAndRun o books w) j.task.id
          = some { j.task with status := taskOutcome o j.request } := by
  have hjobs_req : ((research_book_async books w).2.1).map PendingJob.request = books := by
    rw [research_book_async_eq]
    exact expectedJobs_request w.now books w.nextId
  have hjobs_ids : ((research_book_async books w).2.1).map (fun j => j.task.id)
      = List.range' w.nextId books.length := by
    rw [research_book_async_eq]
    have h1 : (expectedJobs w.nextId w.now books).map (fun j => j.task.id)
        = ((expectedJobs w.nextId w.now books).map PendingJob.task).map ResearchTask.id := by
      rw [List.map_map]
      rfl
    rw [h1, expectedJobs_task, expectedTasks_ids]
  have hrun : submitBatchAndRun o books w
      = runBackground o (research_book_async books w).2.1
          (research_book_async books w).2.2 := by
    rw [submitBatchAndRun, research_book_async_eq]
  constructor
  · rw [hrun, runBackground_store, hjobs_req, research_book_async_eq]
  · intro j hj
    rw [hrun]
    refine runBackground_status o _ _
      (by rw [hjobs_ids]; exact List.nodup_range' ..) ?_ j hj
    intro jr hjr
    rw [findTask_isSome_iff]
    have hid : jr.task.id ∈ List.range' w.nextId books.length := by
      rw [← hjobs_ids]
      exact List.mem_map_of_mem _ hjr
    have htasks : ((research_book_async books w).2.2).tasks.map ResearchTask.id
        = w.tasks.map ResearchTask.id ++ List.range' w.nextId books.length := by
      rw [research_book_async_eq]
      simp [List.map_append, expectedTasks_ids]
    rw [htasks]
    exact List.mem_append_right _ hid

/-- C2, witness: the three-request batch where the second request's
search call raises: the final store holds exactly the first and third
documents, the second task is `FAILURE`, its siblings are `SUCCESS`. -/
theorem c2_witness :
    ((submitBatchAndRun batchOracle demoBatch sampleWorld).store.entries
      = sampleWorld.store.entries ++ demoBatch.filterMap (jobDoc batchOracle))
    ∧ findTask (submitBatchAndRun batchOracle demoBatch sampleWorld) 1
        = some { id := 1, title := "Book2", other_info := none,
                 status := TaskStatusEnum.FAILURE, started_at := 0 }
    ∧ findTask (submitBatchAndRun batchOracle demoBatch sampleWorld) 0
        = some { id := 0, title := "Book1", other_info := none,
                 status := TaskStatusEnum.SUCCESS, started_at := 0 } :=
  ⟨(c2 batchOracle demoBatch sampleWorld).1,
   (c2 batchOracle demoBatch sampleWorld).2
     { request := { title := "Book2", other_info := none },
       task := { id := 1, title := "Book2", other_info := none,
                 status := TaskStatusEnum.WORKING, started_at := 0 } }
     (by decide),
   (c2 batchOracle demoBatch sampleWorld).2
     { request := { title := "Book1", other_info := none },
       task := { id := 0, title := "Book1", other_info := none,
                 status := TaskStatusEnum.WORKING, started_at := 0 } }
     (by decide)⟩

/-! ### Vector search (claim C5) -/

/-- C5: the code-bug demonstration.  `vector_similarity` does build its
`$vectorSearch` stage with a candidate set 10 times wider than the
limit, but it never returns the ranked scored list the claim (and the
spec's vector_search contract) describe: its `$project` stage keeps
only `_id` and the computed `similarity`, so the `projection_model`
parse into `BookResearchWithSimilarity` fails on every result document —
the call returns `ok []` when nothing matches and raises the validation
error whenever the store is nonempty and the limit nonzero. -/
theorem c5 (sim : List ℚ → List ℚ → ℚ) (st : ResearchStoreState)
    (qv : List ℚ) (k : Nat) :
    ((mkVectorSearchStage qv k).numCandidates = 10 * k)
    ∧ (st.entries = [] ∨ k = 0 → vector_similarity sim st qv k = .ok [])
    ∧ (st.entries ≠ [] → k ≠ 0 →
        vector_similarity sim st qv k = .error .validationError) :=
  ⟨by dsimp [mkVectorSearchStage]; omega,
   vector_similarity_ok_empty sim st qv k,
   vector_similarity_error_nonempty sim st qv k⟩

/-- C5, witness: the concrete two-document store with `limit = 1` raises
the validation error; the empty store returns the empty list. -/
theorem c5_witness :
    ((mkVectorSearchStage [1, 0] 1).numCandidates = 10 * 1)
    ∧ vector_similarity headSim emptyStore [1, 0] 5 = .ok []
    ∧ vector_similarity headSim twoDocStore [1, 0] 1 = .error .validationError :=
  ⟨(c5 headSim twoDocStore [1, 0] 1).1,
   (c5 headSim emptyStore [1, 0] 5).2.1 (Or.inl rfl),
   (c5 headSim twoDocStore [1, 0] 1).2.2 (by decide) (by decide)⟩

/-! ### Task lifecycle (claim C7) -/

/-- C7, counterexample: the reachable state of a record deleted while
its background job is still in flight admits a `deleted → SUCCESS`
transition — the job's upserting `save()` re-inserts the record directly
in a terminal status — which is none of the claim's
`WORKING → SUCCESS`, `WORKING → FAILURE`, or deletion. -/
theorem c7_counterexample :
    Relation.ReflTransGen TaskStep TaskLifeState.absent
      (TaskLifeState.deleted false)
    ∧ TaskStep (TaskLifeState.deleted false)
        (TaskLifeState.active TaskStatusEnum.SUCCESS true) :=
  ⟨Relation.ReflTransGen.tail
      (Relation.ReflTransGen.single TaskStep.create)
      (TaskStep.delete TaskStatusEnum.WORKING false),
   TaskStep.resurrect true⟩

/-- C7, amended: under the task-lifecycle step relation — now including
the upserting terminal save of a job that outlives its record's deletion
— (1) creation from nothing still always yields a `WORKING` record, but
an upsert can re-insert a deleted record directly in a terminal status;
(2) from a terminal record whose job has saved, the only possible step
is deletion; (3) along any reachable sequence, a terminal record with
its job complete stays exactly as it is until (at most) it is deleted —
never back to `WORKING`, never to the other terminal status; and (4)
every record reachable from scratch that shows a terminal status has
its job complete, so (3) covers every terminal record the system
produces. -/
theorem c7_amended :
    (∀ s, TaskStep .absent s → s = .active TaskStatusEnum.WORKING false)
    ∧ (∀ st b s, (st = TaskStatusEnum.SUCCESS ∨ st = TaskStatusEnum.FAILURE) →
        TaskStep (.active st b) s → s = .deleted b)
    ∧ (∀ st s, (st = TaskStatusEnum.SUCCESS ∨ st = TaskStatusEnum.FAILURE) →
        Relation.ReflTransGen TaskStep (.active st true) s →
        s = .active st true ∨ s = .deleted true)
    ∧ (∀ st b, Relation.ReflTransGen TaskStep .absent (.active st b) →
        (st = TaskStatusEnum.SUCCESS ∨ st = TaskStatusEnum.FAILURE) →
        b = true) := by
  have hstep : ∀ st b s,
      (st = TaskStatusEnum.SUCCESS ∨ st = TaskStatusEnum.FAILURE) →
      TaskStep (.active st b) s → s = .deleted b := by
    intro st b s hterm h
    cases h with
    | finish ok => rcases hterm with h | h <;> exact absurd h (by decide)
    | delete s b => rfl
  have hinv : ∀ s, Relation.ReflTransGen TaskStep .absent s →
      ∀ st b, s = .active st b →
        (st = TaskStatusEnum.SUCCESS ∨ st = TaskStatusEnum.FAILURE) →
        b = true := by
    intro s h
    induction h with
    | refl =>
      intro st b he
      exact absurd he (by simp)
    | tail h₁ h₂ ih =>
      intro st b he hterm
      subst he
      cases h₂ with
      | create => rcases hterm with h | h <;> exact absurd h (by decide)
      | finish ok => rfl
      | resurrect ok => rfl
  refine ⟨?_, hstep, ?_, fun st b h hterm => hinv _ h st b rfl hterm⟩
  · intro s h
    cases h
    rfl
  · intro st s hterm h
    induction h with
    | refl => exact Or.inl rfl
    | tail h₁ h₂ ih =>
      rcases ih with hm | hm
      · rw [hm] at h₂
        exact Or.inr (hstep st true _ hterm h₂)
      · rw [hm] at h₂
        cases h₂

/-- C7, witness: creation lands in `WORKING`; from `SUCCESS` with the
job complete the concrete one-step deletion sequence ends deleted; and
the concrete create-then-finish trace reaching `SUCCESS` has the job
complete. -/
theorem c7_amended_witness :
    (TaskLifeState.active TaskStatusEnum.WORKING false
      = TaskLifeState.active TaskStatusEnum.WORKING false)
    ∧ (TaskLifeState.deleted true
        = TaskLifeState.active TaskStatusEnum.SUCCESS true
      ∨ TaskLifeState.deleted true = TaskLifeState.deleted true)
    ∧ true = true :=
  ⟨c7_amended.1 _ TaskStep.create,
   c7_amended.2.2.1 TaskStatusEnum.SUCCESS (TaskLifeState.deleted true)
     (Or.inl rfl)
     (Relation.ReflTransGen.single (TaskStep.delete TaskStatusEnum.SUCCESS true)),
   c7_amended.2.2.2 TaskStatusEnum.SUCCESS true
     (Relation.ReflTransGen.tail
       (Relation.ReflTransGen.single TaskStep.create) (TaskStep.finish true))
     (Or.inl rfl)⟩

end Bookstore
